import Mathlib

/-!
Verification of the nanocl job-orchestration core (bin/nanocld/src/utils/job.rs)
and the metric model (bin/nanocld/src/models/metric.rs) against its
natural-language specification.

The Rust code is shallowly embedded: async fan-outs are determinized into
list traversals that record the trace of runtime calls they issue, the
container runtime and the job store are modelled as explicit values
(a list of containers, a list of job records), and fallible runtime calls
are oracles `id -> Except HttpError _` supplied as parameters. A
FuturesUnordered/FuturesOrdered collection launches every future before
any result is awaited, so each fan-out records the full trace of issued
calls and aggregates the results with first-error semantics.
-/

namespace Nanocl

/-- HTTP-style structured error (nanocl_error::http::HttpError):
a status code plus a message. -/
structure HttpError where
  status : Nat
  msg : String
deriving Repr, DecidableEq

/-- bollard ContainerState: runtime-reported state of a container.
Rust fields are Option<bool> / Option<i64> / Option<String>; Default
is all None. -/
structure ContainerState where
  running : Option Bool := none
  exit_code : Option Int := none
  error : Option String := none
deriving Repr, DecidableEq, Inhabited

/-- bollard ContainerSummary: listing metadata of a runtime container.
Labels are a map; modelled as an association list with unique keys
(HashMap semantics are captured by the lookup/insert operations below). -/
structure ContainerSummary where
  id : Option String := none
  names : Option (List String) := none
  labels : Option (List (String × String)) := none
deriving Repr, DecidableEq, Inhabited

/-- bollard ContainerInspectResponse: detailed inspect result. -/
structure ContainerInspectResponse where
  id : Option String := none
  state : Option ContainerState := none
deriving Repr, DecidableEq, Inhabited

/-- nanocl_stubs NodeContainerSummary: a container summary attributed to the
node that owns it (hostname, advertise address). -/
structure NodeContainerSummary where
  node : String
  ip_address : String
  container : ContainerSummary
deriving Repr, DecidableEq

/-- The per-instance contribution of the loop body of `count_instances`
(job.rs lines 120-137), as a (failed, success, running) triple: a running
instance counts only as running (`continue`); otherwise an exit code of 0
counts as success and a non-zero one as failed, and independently a
non-empty error string counts as failed again. -/
def classify_instance (container_inspect : ContainerInspectResponse) :
    Nat × Nat × Nat :=
  let state := container_inspect.state.getD default
  if state.running.getD false then (0, 0, 1)
  else
    let from_exit : Nat × Nat :=
      match state.exit_code with
      | some exit_code => if exit_code = 0 then (0, 1) else (1, 0)
      | none => (0, 0)
    let from_error : Nat :=
      match state.error with
      | some error => if ¬ error.isEmpty then 1 else 0
      | none => 0
    (from_exit.1 + from_error, from_exit.2, 0)

/-- The counter loop of count_instances (job.rs lines 117-138): accumulate
the (failed, success, running) increments of every instance. The Rust loop
adds each instance's increments to three mutable counters; addition of the
per-instance contributions is order-independent, so the loop is embedded
as a structural recursion summing `classify_instance` over the list. -/
def count_loop
    (instances : List (ContainerInspectResponse × NodeContainerSummary)) :
    Nat × Nat × Nat :=
  match instances with
  | [] => (0, 0, 0)
  | inst :: rest =>
    let d := classify_instance inst.1
    let r := count_loop rest
    (d.1 + r.1, d.2.1 + r.2.1, d.2.2 + r.2.2)

/-- count_instances (job.rs lines 114-145): run the counter loop and return
(total, failed, success, running) where total is the input length. -/
def count_instances
    (instances : List (ContainerInspectResponse × NodeContainerSummary)) :
    Nat × Nat × Nat × Nat :=
  let counts := count_loop instances
  (instances.length, counts.1, counts.2.1, counts.2.2)

/-- A fixed node summary used to build concrete instances in examples. -/
def someNode : NodeContainerSummary :=
  { node := "node1", ip_address := "127.0.0.1", container := {} }

/-- Spec-side counter: one failed increment from the exit code
("non-zero → increment failed"), stated in the spec's words for comparison
with the embedded classifier. -/
def spec_exit_failed (state : ContainerState) : Nat :=
  match state.exit_code with
  | some exit_code => if exit_code ≠ 0 then 1 else 0
  | none => 0

/-- Spec-side counter: one succeeded increment from the exit code
("0 → increment succeeded"). -/
def spec_exit_succeeded (state : ContainerState) : Nat :=
  match state.exit_code with
  | some exit_code => if exit_code = 0 then 1 else 0
  | none => 0

/-- Spec-side counter: one failed increment from a non-empty runtime error
string ("if a non-empty runtime error string is present → increment failed
again"). -/
def spec_error_failed (state : ContainerState) : Nat :=
  match state.error with
  | some error => if ¬ error.isEmpty then 1 else 0
  | none => 0

/-- Concrete instance: not running, exit code 1, error string "oom". -/
def oomInstance : ContainerInspectResponse :=
  { state := some { running := some false, exit_code := some 1, error := some "oom" } }

/-- Concrete instance: running, with (ignored) exit code 1. -/
def runningExit1Instance : ContainerInspectResponse :=
  { state := some { running := some true, exit_code := some 1 } }

/-- Concrete instance: not running, exit code 0, no error. -/
def exit0Instance : ContainerInspectResponse :=
  { state := some { running := some false, exit_code := some 0 } }

/-- A container known to the runtime: its listing summary, whether it is
currently running (used by list filtering when `all` is false), and its
detailed inspect data. The runtime world is a list of these. -/
structure DockerContainer where
  summary : ContainerSummary := {}
  running : Bool := false
  inspect : ContainerInspectResponse := {}
deriving Repr, DecidableEq, Inhabited

/-- bollard ListContainersOptions, restricted to the fields the core sets:
`all` and the label filters (job.rs lines 46-52 build a filter map holding
label = ["io.nanocl.job=<name>"]). -/
structure ListContainersOptions where
  all : Bool := false
  label_filters : List String := []
deriving Repr, DecidableEq

/-- Docker label-filter match: a container matches the filter string "k=v"
when it carries a label with key k and value v. -/
def container_matches_filter (c : ContainerSummary) (f : String) : Bool :=
  (c.labels.getD []).any (fun kv => kv.1 ++ "=" ++ kv.2 = f)

/-- Modelled from the spec: the Runtime Client Adapter's
`list_containers(label_filter) -> [ContainerSummary]` (an external
collaborator, §6): returns the summaries of the containers that match every
label filter, restricted to running ones unless `all` is set. -/
def list_containers (options : ListContainersOptions)
    (world : List DockerContainer) : List ContainerSummary :=
  (world.filter (fun c =>
    (options.all || c.running) &&
      options.label_filters.all (fun f => container_matches_filter c.summary f))).map
    (fun c => c.summary)

/-- list_instances (job.rs lines 41-55): list the runtime containers carrying
the label io.nanocl.job=<name>, with all = true. -/
def list_instances (name : String) (world : List DockerContainer) :
    List ContainerSummary :=
  let label := "io.nanocl.job=" ++ name
  let options : ListContainersOptions := { all := true, label_filters := [label] }
  list_containers options world

/-- Modelled from the spec: the Runtime Client Adapter's
`inspect_container(id) -> ContainerDetail` (§6): look the container up by
its id; an unknown id is a runtime error. -/
def inspect_container (world : List DockerContainer) (id : String) :
    Except HttpError ContainerInspectResponse :=
  match world.find? (fun c => c.summary.id.getD "" = id) with
  | some c => .ok c.inspect
  | none => .error { status := 404, msg := "container not found" }

/-- Rust's `collect` into Result over a list of already-computed results:
return the values, or the first error in sequence order. -/
def collectResults {ε α : Type} : List (Except ε α) → Except ε (List α)
  | [] => .ok []
  | .error e :: _ => .error e
  | .ok a :: rest => (collectResults rest).map (fun l => a :: l)

/-- The first error of a result sequence, if any (the error that a
fail-fast aggregation returns). -/
def first_error {ε α : Type} : List (Except ε α) → Option ε
  | [] => none
  | .error e :: _ => some e
  | .ok _ :: rest => first_error rest

/-- inspect_instances (job.rs lines 72-95): list the job's instances, pair
each with its detailed inspect and a node summary built from the daemon
config, and fail wholly on the first inspect error. This definition lists
the results in launch order; the source collects the concurrent inspects
with FuturesUnordered, whose completion order is implementation-defined,
so an execution observes some permutation of this list — that
nondeterminism is modelled by `unordered_completion` below, and only
order-invariant consequences of this list are program guarantees. -/
def inspect_instances (hostname advertise_addr : String) (name : String)
    (world : List DockerContainer) :
    Except HttpError (List (ContainerInspectResponse × NodeContainerSummary)) :=
  collectResults ((list_instances name world).map (fun container =>
    (inspect_container world (container.id.getD "")).map (fun container_inspect =>
      (container_inspect,
        { node := hostname, ip_address := advertise_addr,
          container := container }))))

/-- nanocl_stubs MetricPartial: the user-supplied part of a metric. The
serde_json payload is opaque to the validation logic; it is modelled as a
string stand-in. -/
structure MetricPartial where
  kind : String
  data : String
deriving Repr, DecidableEq

/-- MetricNodePartial (metric.rs lines 38-45): a metric tagged with the node
that saved it. -/
structure MetricNodePartial where
  kind : String
  node_name : String
  data : String
deriving Repr, DecidableEq

/-- nanocl_error IoError, restricted to the variant this code produces:
invalid_data carries a subject and a detail message and maps to a 400-class
HTTP response. -/
inductive IoError where
  | invalid_data (subject : String) (detail : String)
deriving Repr, DecidableEq

/-- Rust str::split(sep) over a character list: n occurrences of the
separator yield n+1 segments, so the empty string yields one (empty)
segment and a trailing separator yields a trailing empty segment. -/
def split_char (sep : Char) : List Char → List (List Char)
  | [] => [[]]
  | c :: rest =>
    let r := split_char sep rest
    if c = sep then [] :: r
    else
      match r with
      | [] => [[c]]
      | seg :: segs => (c :: seg) :: segs

/-- MetricNodePartial::try_new_node (metric.rs lines 48-60): reject the
metric with an invalid-data error unless its kind splits on a slash into
exactly two segments; otherwise build the node partial from the given node
name and the item's kind and data. -/
def try_new_node (node_name : String) (item : MetricPartial) :
    Except IoError MetricNodePartial :=
  if (split_char '/' item.kind.toList).length ≠ 2 then
    .error (.invalid_data "MetricKind" "must be of the form `domain.tld/kind`")
  else
    .ok { node_name := node_name, kind := item.kind, data := item.data }

/-- bollard container Config (a job's container specification): opaque to
the core beyond a label map it can augment; image and cmd stand for the
opaque remainder. -/
structure ContainerPartial where
  image : Option String := none
  cmd : Option (List String) := none
  labels : Option (List (String × String)) := none
deriving Repr, DecidableEq, Inhabited

/-- nanocl_stubs JobPartial: a job specification as submitted by the user:
name, ordered container specifications, optional secrets and metadata
(metadata's serde_json payload modelled as a string stand-in). -/
structure JobPartial where
  name : String
  containers : List ContainerPartial
  secrets : Option (List String) := none
  metadata : Option String := none
deriving Repr, DecidableEq

/-- nanocl_stubs Job: the persisted job record. Timestamps are abstract
instants (Int). -/
structure Job where
  name : String
  created_at : Int
  updated_at : Int
  secrets : Option (List String) := none
  metadata : Option String := none
  containers : List ContainerPartial := []
deriving Repr, DecidableEq

/-- Modelled from the spec: the Job Store's `create(JobSpec) -> Job` (§6,
repositories::job::create is not under src/): persist the Job record built
from the partial, both timestamps set to the creation instant, and return
it. -/
def repo_job_create (now : Int) (item : JobPartial) (store : List Job) :
    Job × List Job :=
  let job : Job :=
    { name := item.name, created_at := now, updated_at := now,
      secrets := item.secrets, metadata := item.metadata,
      containers := item.containers }
  (job, store ++ [job])

/-- Modelled from the spec: the Job Store's `find_by_name(name) -> Job`
(§6, repositories::job::find_by_name is not under src/): not-found is a
404-class error. -/
def repo_find_by_name (name : String) (store : List Job) :
    Except HttpError Job :=
  match store.find? (fun j => j.name = name) with
  | some job => .ok job
  | none => .error { status := 404, msg := "job not found" }

/-- Modelled from the spec: the Job Store's `update_by_name(name,
updated_at)` (§6, repositories::job::update_by_name is not under src/):
the update model carries only an updated_at value (models/JobUpdateDbModel),
so only that field of the named job changes. -/
def repo_update_by_name (name : String) (updated_at : Int)
    (store : List Job) : List Job :=
  store.map (fun j => if j.name = name then { j with updated_at := updated_at } else j)

/-- Modelled from the spec: the Job Store's `delete_by_name(name)` (§6,
repositories::job::delete_by_name is not under src/): remove the named Job
record from the store. -/
def repo_delete_by_name (name : String) (store : List Job) : List Job :=
  store.filter (fun j => j.name ≠ name)

/-- HashMap::insert over the label map: replace the value bound to the key,
or append a new binding. -/
def insertLabel (key value : String) :
    List (String × String) → List (String × String)
  | [] => [(key, value)]
  | kv :: rest =>
    if kv.1 = key then (key, value) :: rest
    else kv :: insertLabel key value rest

/-- Label lookup by key. -/
def lookupLabel (key : String) : List (String × String) → Option String
  | [] => none
  | kv :: rest => if kv.1 = key then some kv.2 else lookupLabel key rest

/-- The per-specification request transformation of create (job.rs lines
173-176): clone the container specification, fetch its labels (empty map
when absent), insert the io.nanocl.job = <job name> label, and store the
augmented map back. -/
def inject_job_label (job_name : String) (container : ContainerPartial) :
    ContainerPartial :=
  let labels := container.labels.getD []
  { container with labels := some (insertLabel "io.nanocl.job" job_name labels) }

/-- The container-create requests that create submits for a persisted job
(job.rs lines 167-186): one per container specification, each with the job
label injected. -/
def submitted_specs (job : Job) : List ContainerPartial :=
  job.containers.map (inject_job_label job.name)

/-- create (job.rs lines 162-193): persist the Job record first, then fan
out one create-container runtime call per container specification, each
with the job label injected; all calls are issued (FuturesUnordered), the
results are aggregated with first-error semantics and no rollback, and the
persisted Job is returned on success. The result is (trace of submitted
container specs, store afterwards, outcome). -/
def create (create_container : ContainerPartial → Except HttpError Unit)
    (now : Int) (item : JobPartial) (store : List Job) :
    List ContainerPartial × List Job × Except HttpError Job :=
  let r := repo_job_create now item store
  match collectResults ((submitted_specs r.1).map create_container) with
  | .error e => (submitted_specs r.1, r.2, .error e)
  | .ok _ => (submitted_specs r.1, r.2, .ok r.1)

/-- The per-instance future of start_by_name (job.rs lines 218-235): an
already-running instance returns Ok(()) without issuing a start call;
otherwise a start call is issued for the instance's id. The result is
(start calls issued, outcome). -/
def start_step (start_container : String → Except HttpError Unit)
    (inspect : ContainerInspectResponse) :
    List String × Except HttpError Unit :=
  if (inspect.state.getD default).running.getD false then ([], .ok ())
  else
    let id := inspect.id.getD ""
    ([id], start_container id)

/-- The FuturesOrdered stage of start_by_name (job.rs lines 216-240): build
one start future per inspected instance and aggregate the results in the
instance sequence's order with first-error semantics (FuturesOrdered
yields results in push order). The recorded trace serializes the issued
start calls in that same push order, which is one admissible execution:
FuturesOrdered polls its futures concurrently, so the real issuance order
of the calls is not guaranteed — only facts about the trace that are
invariant under permutation are program guarantees, while the result
aggregation order is exact. -/
def start_instances (start_container : String → Except HttpError Unit)
    (containers : List (ContainerInspectResponse × NodeContainerSummary)) :
    List String × Except HttpError (List Unit) :=
  let futures := containers.map (fun inst => start_step start_container inst.1)
  ((futures.map (fun f => f.1)).flatten, collectResults (futures.map (fun f => f.2)))

/-- start_by_name (job.rs lines 210-250): confirm the job exists, inspect
its instances, run the per-instance start futures as a FuturesOrdered
(results awaited in the instance sequence's order), aggregate with
first-error semantics, and on success update the job's updated_at in the
store. The result is (start calls issued in order, store afterwards,
outcome). -/
def start_by_name (start_container : String → Except HttpError Unit)
    (hostname advertise_addr : String) (now : Int) (name : String)
    (store : List Job) (world : List DockerContainer) :
    List String × List Job × Except HttpError Unit :=
  match repo_find_by_name name store with
  | .error e => ([], store, .error e)
  | .ok _ =>
    match inspect_instances hostname advertise_addr name world with
    | .error e => ([], store, .error e)
    | .ok containers =>
      let r := start_instances start_container containers
      match r.2 with
      | .error e => (r.1, store, .error e)
      | .ok _ => (r.1, repo_update_by_name name now store, .ok ())

/-- delete_by_name (job.rs lines 313-341): confirm the job exists, list its
instances (list only, no detailed inspect), fan out one remove call per
instance with force = true, aggregate with first-error semantics, and only
on success delete the Job record from the store. The result is (remove
calls issued as (id, force) pairs, store afterwards, outcome). -/
def delete_by_name (remove_container : String → Bool → Except HttpError Unit)
    (name : String) (store : List Job) (world : List DockerContainer) :
    List (String × Bool) × List Job × Except HttpError Unit :=
  match repo_find_by_name name store with
  | .error e => ([], store, .error e)
  | .ok job =>
    let containers := list_instances name world
    let trace := containers.map (fun c => (c.id.getD "", true))
    match collectResults (containers.map (fun c => remove_container (c.id.getD "") true)) with
    | .error e => (trace, store, .error e)
    | .ok _ => (trace, repo_delete_by_name job.name store, .ok ())

/-- bollard error variants observable on a wait stream: the runtime's
DockerContainerWaitError (a container-wait condition with a message and a
status code) and every other transport-level error. -/
inductive DockerError where
  | DockerContainerWaitError (error : String) (code : Int)
  | ApiError (msg : String)
deriving Repr, DecidableEq

/-- bollard ContainerWaitExitError: the error detail of a wait response. -/
structure ContainerWaitExitError where
  message : Option String := none
deriving Repr, DecidableEq

/-- bollard ContainerWaitResponse: a wait result from the runtime. -/
structure ContainerWaitResponse where
  status_code : Int
  error : Option ContainerWaitExitError := none
deriving Repr, DecidableEq

/-- nanocl_stubs JobWaitResponse: the normalized wait record emitted to the
consumer. -/
structure JobWaitResponse where
  container_name : String
  status_code : Int
  error : Option ContainerWaitExitError := none
deriving Repr, DecidableEq

/-- Modelled from the spec: JobWaitResponse::from_container_wait_response
(nanocl_stubs, not under src/): "map each emitted wait event into a
normalized record: (instance_name, exit_status_code, optional error)". -/
def from_container_wait_response (wait_response : ContainerWaitResponse)
    (container_name : String) : JobWaitResponse :=
  { container_name := container_name,
    status_code := wait_response.status_code,
    error := wait_response.error }

/-- The cleaned instance name (job.rs lines 465-470): join the runtime's
name list and remove every slash (Rust join of the names with the empty
separator, then replacing each slash with nothing). -/
def clean_container_name (names : Option (List String)) : String :=
  String.mk ((String.join (names.getD [])).toList.filter (fun c => c ≠ '/'))

/-- The per-element mapping of the wait stream (job.rs lines 474-497): a
runtime DockerContainerWaitError becomes a non-error JobWaitResponse
carrying the cleaned name, the runtime status code and the message; every
other error propagates; a normal wait response is normalized. -/
def map_wait_result (container_name : String) :
    Except DockerError ContainerWaitResponse → Except DockerError JobWaitResponse
  | .error err =>
    match err with
    | .DockerContainerWaitError error code =>
      .ok { container_name := container_name, status_code := code,
            error := some { message := some error } }
    | e => .error e
  | .ok wait_response =>
    .ok (from_container_wait_response wait_response container_name)

/-- wait (job.rs lines 453-502): confirm the job exists, list its
instances, open one wait stream per instance, map each element with
map_wait_result under the instance's cleaned name, and merge the streams.
select_all interleaves elements in arrival order; the merge is serialized
here as the concatenation of the per-instance streams (the claims proved
about it are invariant under interleaving). The wait oracle gives each
container id's stream of wait results. -/
def wait (wait_results : String → List (Except DockerError ContainerWaitResponse))
    (name : String) (store : List Job) (world : List DockerContainer) :
    Except HttpError (List (Except DockerError JobWaitResponse)) :=
  match repo_find_by_name name store with
  | .error e => .error e
  | .ok job =>
    let containers := list_instances job.name world
    let streams := containers.map (fun container =>
      let id := container.id.getD ""
      let container_name := clean_container_name container.names
      (wait_results id).map (map_wait_result container_name))
    .ok streams.flatten

/-- What a consumer of the merged stream sees (transform_stream semantics,
§4.7/§4.8 of the spec): elements up to and including the first stream-level
error; a stream with no error element is consumed whole. -/
def consumed_stream {ε α : Type} : List (Except ε α) → List (Except ε α)
  | [] => []
  | .ok a :: rest => .ok a :: consumed_stream rest
  | .error e :: _ => [.error e]

/-- The non-error records of a stream. -/
def ok_records {ε α : Type} : List (Except ε α) → List α
  | [] => []
  | .ok a :: rest => a :: ok_records rest
  | .error _ :: rest => ok_records rest

/-- A persisted job record used in concrete scenarios. -/
def job1 : Job := { name := "job1", created_at := 0, updated_at := 0 }

/-- A runtime container of job1 with the given id and running flag; its
single runtime name is the id behind the runtime's slash prefix. -/
def job_container (id : String) (running : Bool) : DockerContainer :=
  { summary := { id := some id, names := some ["/" ++ id],
                 labels := some [("io.nanocl.job", "job1")] },
    running := running,
    inspect := { id := some id, state := some { running := some running } } }

/-- Start scenario world: three instances, the second already running. -/
def startWorld : List DockerContainer :=
  [job_container "c1" false, job_container "c2" true, job_container "c3" false]

/-- A start oracle whose calls all succeed. -/
def okStart : String → Except HttpError Unit := fun _ => .ok ()

/-- A remove oracle that fails on container c2. -/
def failRemove : String → Bool → Except HttpError Unit :=
  fun id _ =>
    if id = "c2" then .error { status := 500, msg := "remove failed" } else .ok ()

/-- A remove oracle that always succeeds. -/
def okRemove : String → Bool → Except HttpError Unit := fun _ _ => .ok ()

/-- A create-container oracle that fails on image "bad". -/
def failCreate : ContainerPartial → Except HttpError Unit :=
  fun c =>
    if c.image = some "bad" then .error { status := 500, msg := "create failed" }
    else .ok ()

/-- A job specification with three container specifications, the second of
which the failCreate oracle rejects. -/
def jobPartial3 : JobPartial :=
  { name := "job1",
    containers := [{ image := some "good1" }, { image := some "bad" },
      { image := some "good2" }] }

/-- A container specification whose user labels already bind the
io.nanocl.job key. -/
def userLabeledContainer : ContainerPartial :=
  { image := some "alpine",
    labels := some [("io.nanocl.job", "evil"), ("app", "web")] }

/-- A job specification holding the user-labeled container. -/
def userJobPartial : JobPartial :=
  { name := "job1", containers := [userLabeledContainer] }

/-- Wait scenario world: two stopped instances of job1. -/
def waitWorld : List DockerContainer :=
  [job_container "c1" false, job_container "c2" false]

/-- Wait oracle: instance c1's wait reports a container-wait error,
instance c2's wait reports exit code 0. -/
def waitOracle : String → List (Except DockerError ContainerWaitResponse) :=
  fun id =>
    if id = "c1" then [.error (.DockerContainerWaitError "container removed" 137)]
    else if id = "c2" then [.ok { status_code := 0 }]
    else []

/-- The merged wait stream the waitOracle scenario must produce: two
non-error records, the first embedding c1's wait-error content. -/
def waitMerged : List (Except DockerError JobWaitResponse) :=
  [.ok { container_name := "c1", status_code := 137,
         error := some { message := some "container removed" } },
   .ok { container_name := "c2", status_code := 0 }]

/-- FuturesUnordered completion-order nondeterminism: collecting the
concurrently launched futures yields their results in an
implementation-defined completion order, i.e. an execution may observe any
permutation of the launch-order result list. -/
def unordered_completion {α : Type} (launched completed : List α) : Prop :=
  completed.Perm launched

/-- start_by_name (job.rs lines 210-250) over one admissible execution of
its inspect fan-out: the FuturesUnordered collection of inspect_instances
delivers `completed` — some permutation of the launch-order list, see
`unordered_completion` — and the FuturesOrdered start stage runs on it.
The issuance order recorded in the trace is the push-order serialization
(one admissible execution); only permutation-invariant facts about the
trace are program guarantees. -/
def start_by_name_completed (start_container : String → Except HttpError Unit)
    (now : Int) (name : String) (store : List Job)
    (completed : List (ContainerInspectResponse × NodeContainerSummary)) :
    List String × List Job × Except HttpError Unit :=
  match repo_find_by_name name store with
  | .error e => ([], store, .error e)
  | .ok _ =>
    let r := start_instances start_container completed
    match r.2 with
    | .error e => (r.1, store, .error e)
    | .ok _ => (r.1, repo_update_by_name name now store, .ok ())

/-- An admissible completion order of the startWorld inspect fan-out that
delivers c3 first, then c2, then c1. -/
def reversedCompletion : List (ContainerInspectResponse × NodeContainerSummary) :=
  [((job_container "c3" false).inspect,
    { node := "node1", ip_address := "127.0.0.1",
      container := (job_container "c3" false).summary }),
   ((job_container "c2" true).inspect,
    { node := "node1", ip_address := "127.0.0.1",
      container := (job_container "c2" true).summary }),
   ((job_container "c1" false).inspect,
    { node := "node1", ip_address := "127.0.0.1",
      container := (job_container "c1" false).summary })]

end Nanocl

namespace Nanocl

theorem classify_instance_running (c : ContainerInspectResponse)
    (h : (c.state.getD default).running.getD false = true) :
    classify_instance c = (0, 0, 1) := by
  simp [classify_instance, h]

theorem classify_instance_not_running (c : ContainerInspectResponse)
    (h : (c.state.getD default).running.getD false = false) :
    classify_instance c =
      (spec_exit_failed (c.state.getD default) +
        spec_error_failed (c.state.getD default),
       spec_exit_succeeded (c.state.getD default), 0) := by
  simp only [classify_instance, h, Bool.false_eq_true, if_false]
  cases hx : (c.state.getD default).exit_code with
  | none =>
    cases he : (c.state.getD default).error with
    | none => simp [spec_exit_failed, spec_error_failed, spec_exit_succeeded, hx, he]
    | some s =>
      by_cases hs : s.isEmpty <;>
        simp [spec_exit_failed, spec_error_failed, spec_exit_succeeded, hx, he, hs]
  | some e =>
    cases he : (c.state.getD default).error with
    | none =>
      by_cases h0 : e = 0 <;>
        simp [spec_exit_failed, spec_error_failed, spec_exit_succeeded, hx, he, h0]
    | some s =>
      by_cases h0 : e = 0 <;> by_cases hs : s.isEmpty <;>
        simp [spec_exit_failed, spec_error_failed, spec_exit_succeeded, hx, he, h0, hs]

/-- C2: the classifier counts a running instance only as running (its exit
code is ignored); a non-running instance contributes one succeeded when the
exit code is 0, one failed when it is non-zero, and independently one more
failed when a non-empty error string is present; concretely,
{running: false, exit_code: 1, error: "oom"} yields two failed increments
and {running: true, exit_code: 1} counts only as running. -/
theorem count_instances_classifies_C2 :
    (∀ (c : ContainerInspectResponse) (n : NodeContainerSummary),
      (c.state.getD default).running.getD false = true →
      count_instances [(c, n)] = (1, 0, 0, 1)) ∧
    (∀ (c : ContainerInspectResponse) (n : NodeContainerSummary),
      (c.state.getD default).running.getD false = false →
      count_instances [(c, n)] =
        (1, spec_exit_failed (c.state.getD default) +
              spec_error_failed (c.state.getD default),
         spec_exit_succeeded (c.state.getD default), 0)) ∧
    count_instances [(oomInstance, someNode)] = (1, 2, 0, 0) ∧
    count_instances [(runningExit1Instance, someNode)] = (1, 0, 0, 1) := by
  refine ⟨?_, ?_, ?_, ?_⟩
  · intro c n h
    simp [count_instances, count_loop, classify_instance_running c h]
  · intro c n h
    simp [count_instances, count_loop, classify_instance_not_running c h]
  · decide
  · decide

/-- C2 witness: the classification rules applied at concrete instances. -/
theorem count_instances_classifies_C2_witness :
    count_instances [(runningExit1Instance, someNode)] = (1, 0, 0, 1) ∧
    count_instances [(exit0Instance, someNode)] = (1, 0, 1, 0) := by
  constructor
  · exact count_instances_classifies_C2.1 runningExit1Instance someNode (by decide)
  · have h := count_instances_classifies_C2.2.1 exit0Instance someNode (by decide)
    simpa [spec_exit_failed, spec_error_failed, spec_exit_succeeded,
      exit0Instance] using h

theorem classify_instance_bounds (c : ContainerInspectResponse) :
    (classify_instance c).2.2 ≤ 1 ∧
    (classify_instance c).1 + (classify_instance c).2.1 +
      (classify_instance c).2.2 ≤ 2 := by
  by_cases h : (c.state.getD default).running.getD false = true
  · rw [classify_instance_running c h]
    exact ⟨le_refl 1, by norm_num⟩
  · rw [classify_instance_not_running c (by simpa using h)]
    refine ⟨Nat.zero_le 1, ?_⟩
    have h1 : spec_exit_failed (c.state.getD default) +
        spec_exit_succeeded (c.state.getD default) ≤ 1 := by
      unfold spec_exit_failed spec_exit_succeeded
      cases (c.state.getD default).exit_code with
      | none => simp
      | some e => by_cases h0 : e = 0 <;> simp [h0]
    have h2 : spec_error_failed (c.state.getD default) ≤ 1 := by
      unfold spec_error_failed
      cases (c.state.getD default).error with
      | none => simp
      | some s => by_cases hs : s.isEmpty <;> simp [hs]
    dsimp only
    omega

theorem count_loop_bounds
    (instances : List (ContainerInspectResponse × NodeContainerSummary)) :
    (count_loop instances).2.2 ≤ instances.length ∧
    (count_loop instances).1 + (count_loop instances).2.1 +
      (count_loop instances).2.2 ≤ 2 * instances.length := by
  induction instances with
  | nil => simp [count_loop]
  | cons head tail ih =>
    obtain ⟨ih1, ih2⟩ := ih
    obtain ⟨hc1, hc2⟩ := classify_instance_bounds head.1
    simp only [count_loop, List.length_cons]
    constructor
    · omega
    · omega

/-- C6: the classifier's output (total, failed, succeeded, running)
satisfies total = input length, running ≤ total, and
running + succeeded + failed ≤ 2 × total. -/
theorem count_instances_bounds_C6
    (instances : List (ContainerInspectResponse × NodeContainerSummary)) :
    (count_instances instances).1 = instances.length ∧
    (count_instances instances).2.2.2 ≤ (count_instances instances).1 ∧
    (count_instances instances).2.2.2 + (count_instances instances).2.2.1 +
      (count_instances instances).2.1 ≤ 2 * (count_instances instances).1 := by
  obtain ⟨h1, h2⟩ := count_loop_bounds instances
  refine ⟨rfl, ?_, ?_⟩
  · simpa [count_instances] using h1
  · simp only [count_instances]
    omega

/-- C8: list_instances queries the runtime for containers matching the label
filter io.nanocl.job=<job_name> and requests all containers regardless of
run state: its result is exactly the matching containers' summaries, and it
is unchanged under any reassignment of the containers' running flags. -/
theorem list_instances_label_filter_C8 (name : String)
    (world : List DockerContainer) :
    list_instances name world =
      (world.filter (fun c =>
        container_matches_filter c.summary ("io.nanocl.job=" ++ name))).map
        (fun c => c.summary) ∧
    ∀ g : DockerContainer → Bool,
      list_instances name (world.map (fun c => { c with running := g c }))
        = list_instances name world := by
  constructor
  · simp [list_instances, list_containers]
  · intro g
    simp [list_instances, list_containers]
    induction world with
    | nil => simp
    | cons head tail ih =>
      by_cases h : container_matches_filter head.summary ("io.nanocl.job=" ++ name) <;>
        simp [h, ih]

theorem try_new_node_validates_C9 (node_name : String) (item : MetricPartial) :
    ((∃ e, try_new_node node_name item = .error e) ↔
      (split_char '/' item.kind.toList).length ≠ 2) ∧
    (∀ e, try_new_node node_name item = .error e →
      e = .invalid_data "MetricKind" "must be of the form `domain.tld/kind`") ∧
    (∀ p, try_new_node node_name item = .ok p →
      p.node_name = node_name ∧ p.kind = item.kind ∧ p.data = item.data) := by
  unfold try_new_node
  by_cases h : (split_char '/' item.kind.toList).length = 2
  · rw [if_neg (not_not_intro h)]
    refine ⟨?_, ?_, ?_⟩
    · constructor
      · rintro ⟨e, he⟩
        simp at he
      · intro hne
        exact absurd h hne
    · intro e he
      simp at he
    · intro p hp
      simp only [Except.ok.injEq] at hp
      subst hp
      exact ⟨rfl, rfl, rfl⟩
  · rw [if_pos h]
    refine ⟨?_, ?_, ?_⟩
    · constructor
      · intro _
        exact h
      · intro _
        exact ⟨_, rfl⟩
    · intro e he
      simp only [Except.error.injEq] at he
      exact he.symm
    · intro p hp
      simp at hp

/-- C9 witness: the malformed kind "cpu" is rejected and the well-formed
kind "nanocl.io/cpu" is accepted with its fields carried over. -/
theorem try_new_node_validates_C9_witness :
    (∃ e, try_new_node "node1" { kind := "cpu", data := "d" } = .error e) ∧
    (({ kind := "nanocl.io/cpu", node_name := "node1", data := "d" } :
        MetricNodePartial).node_name = "node1" ∧
      ({ kind := "nanocl.io/cpu", node_name := "node1", data := "d" } :
        MetricNodePartial).kind = "nanocl.io/cpu" ∧
      ({ kind := "nanocl.io/cpu", node_name := "node1", data := "d" } :
        MetricNodePartial).data = "d") := by
  constructor
  · exact (try_new_node_validates_C9 "node1" { kind := "cpu", data := "d" }).1.mpr
      (by decide)
  · exact (try_new_node_validates_C9 "node1"
      { kind := "nanocl.io/cpu", data := "d" }).2.2
      { kind := "nanocl.io/cpu", node_name := "node1", data := "d" } rfl

theorem collectResults_error_iff {ε α : Type} (xs : List (Except ε α)) (e : ε) :
    collectResults xs = .error e ↔ first_error xs = some e := by
  induction xs with
  | nil => simp [collectResults, first_error]
  | cons x rest ih =>
    cases x with
    | error a => simp [collectResults, first_error]
    | ok a =>
      simp only [collectResults, first_error]
      cases hr : collectResults rest with
      | error e2 =>
        rw [hr] at ih
        simpa [Except.map] using ih
      | ok l =>
        rw [hr] at ih
        simp [Except.map] at ih ⊢
        intro hcontra
        exact ih hcontra

theorem collectResults_ok_of_all_ok {ε : Type} (xs : List (Except ε Unit))
    (h : ∀ x ∈ xs, x = .ok ()) :
    collectResults xs = .ok (xs.map fun _ => ()) := by
  induction xs with
  | nil => rfl
  | cons x rest ih =>
    have hx := h x (by simp)
    subst hx
    have hrest := ih (fun y hy => h y (by simp [hy]))
    simp [collectResults, hrest, Except.map]

theorem collectResults_ok_of_first_error_none {ε α : Type}
    (xs : List (Except ε α)) (h : first_error xs = none) :
    ∃ l, collectResults xs = .ok l := by
  induction xs with
  | nil => exact ⟨[], rfl⟩
  | cons x rest ih =>
    cases x with
    | error e => simp [first_error] at h
    | ok a =>
      simp only [first_error] at h
      obtain ⟨l, hl⟩ := ih h
      exact ⟨a :: l, by simp [collectResults, hl, Except.map]⟩

theorem start_step_fst_running (sc : String → Except HttpError Unit)
    (c : ContainerInspectResponse)
    (h : (c.state.getD default).running.getD false = true) :
    (start_step sc c).1 = [] := by
  simp [start_step, h]

theorem start_step_fst_not_running (sc : String → Except HttpError Unit)
    (c : ContainerInspectResponse)
    (h : (c.state.getD default).running.getD false = false) :
    (start_step sc c).1 = [c.id.getD ""] := by
  simp [start_step, h]

theorem start_instances_trace (sc : String → Except HttpError Unit)
    (l : List (ContainerInspectResponse × NodeContainerSummary)) :
    (start_instances sc l).1 =
      (l.filter (fun inst =>
        !(inst.1.state.getD default).running.getD false)).map
        (fun inst => inst.1.id.getD "") := by
  simp only [start_instances, List.map_map]
  induction l with
  | nil => rfl
  | cons head tail ih =>
    simp only [List.map_cons, List.flatten_cons, List.filter_cons,
      Function.comp_apply]
    by_cases h : (head.1.state.getD default).running.getD false
    · rw [start_step_fst_running sc head.1 h, ih]
      simp [h]
    · rw [start_step_fst_not_running sc head.1 (by simpa using h), ih]
      simp [h]

theorem start_instances_ok (sc : String → Except HttpError Unit)
    (l : List (ContainerInspectResponse × NodeContainerSummary))
    (h : ∀ inst ∈ l,
      (inst.1.state.getD default).running.getD false = false →
      sc (inst.1.id.getD "") = .ok ()) :
    ∃ r, (start_instances sc l).2 = .ok r := by
  have hall : ∀ x ∈ (l.map (fun inst => start_step sc inst.1)).map (fun f => f.2),
      x = .ok () := by
    intro x hx
    simp only [List.mem_map] at hx
    obtain ⟨f, ⟨inst, hinst, rfl⟩, rfl⟩ := hx
    by_cases hr : (inst.1.state.getD default).running.getD false
    · simp [start_step, hr]
    · simp only [start_step, hr, Bool.false_eq_true, if_false]
      exact h inst hinst (by simpa using hr)
  exact ⟨_, collectResults_ok_of_all_ok _ hall⟩

/-- C1 counterexample: the inspect fan-out is collected in
implementation-defined completion order, so the start stage may observe
the instances in an order other than the declared/listing one; delivering
c3 before c1 is an admissible completion of the startWorld inspect
fan-out, and under it the issued start sequence is ["c3", "c1"], not the
declared-order ["c1", "c3"] the claim asserts for the 3-spec example. -/
theorem start_by_name_order_C1_counterexample :
    unordered_completion
      ((inspect_instances "node1" "127.0.0.1" "job1" startWorld).toOption.getD [])
      reversedCompletion ∧
    (start_by_name_completed okStart 5 "job1" [job1] reversedCompletion).1
      = ["c3", "c1"] ∧
    (["c3", "c1"] : List String) ≠ ["c1", "c3"] := by
  refine ⟨?_, rfl, ?_⟩
  · show List.Perm _ _
    decide
  · decide

/-- C1 (amended): given that the job exists and its instances inspect
successfully, then under every admissible completion order of the inspect
fan-out, start_by_name issues a start call exactly for the instances whose
inspected state is not already running — as a multiset of calls, their
order being implementation-defined — an already-running instance is
skipped as a no-op, not an error, and when every issued start succeeds the
start stage succeeds; in the 3-spec example exactly the two starts of
spec1 and spec3 are issued. -/
theorem start_by_name_order_C1_amended
    (start_container : String → Except HttpError Unit)
    (hostname advertise_addr : String) (now : Int) (name : String)
    (store : List Job) (world : List DockerContainer)
    (containers completed : List (ContainerInspectResponse × NodeContainerSummary))
    (job : Job)
    (hfind : repo_find_by_name name store = .ok job)
    (hinspect : inspect_instances hostname advertise_addr name world
      = .ok containers)
    (hsched : unordered_completion containers completed) :
    ((start_by_name_completed start_container now name store completed).1
        : Multiset String)
      = ((containers.filter (fun inst =>
            !(inst.1.state.getD default).running.getD false)).map
          (fun inst => inst.1.id.getD "") : Multiset String) ∧
    ((∀ inst ∈ completed,
        (inst.1.state.getD default).running.getD false = false →
        start_container (inst.1.id.getD "") = .ok ()) →
      (start_by_name_completed start_container now name store completed).2.2
        = .ok ()) := by
  constructor
  · have htrace : (start_by_name_completed start_container now name store
        completed).1 = (start_instances start_container completed).1 := by
      simp only [start_by_name_completed, hfind]
      split <;> rfl
    rw [htrace, start_instances_trace]
    exact Multiset.coe_eq_coe.mpr ((hsched.filter _).map _)
  · intro hok
    obtain ⟨r, hc⟩ := start_instances_ok start_container completed hok
    simp [start_by_name_completed, hfind, hc]

/-- C1 amended witness: in the three-instance scenario where the second
instance is already running, exactly the starts of c1 and c3 are issued
(here under the launch-order completion) and the start stage succeeds. -/
theorem start_by_name_order_C1_amended_witness :
    ((start_by_name_completed okStart 5 "job1" [job1]
        ((inspect_instances "node1" "127.0.0.1" "job1"
          startWorld).toOption.getD [])).1 : Multiset String)
      = (["c1", "c3"] : Multiset String) ∧
    (start_by_name_completed okStart 5 "job1" [job1]
        ((inspect_instances "node1" "127.0.0.1" "job1"
          startWorld).toOption.getD [])).2.2 = .ok () := by
  have h := start_by_name_order_C1_amended okStart "node1" "127.0.0.1" 5 "job1"
    [job1] startWorld
    ((inspect_instances "node1" "127.0.0.1" "job1" startWorld).toOption.getD [])
    ((inspect_instances "node1" "127.0.0.1" "job1" startWorld).toOption.getD [])
    job1 rfl rfl (List.Perm.refl _)
  constructor
  · exact h.1.trans (by rfl)
  · exact h.2 (fun _ _ _ => rfl)

/-- C7: on success, start_by_name leaves every stored job's name, creation
timestamp, container specifications, secrets and metadata unchanged and
only sets the started job's updated_at to the new instant; on any failure
the store is left untouched. -/
theorem start_by_name_frame_C7
    (start_container : String → Except HttpError Unit)
    (hostname advertise_addr : String) (now : Int) (name : String)
    (store : List Job) (world : List DockerContainer) :
    ((start_by_name start_container hostname advertise_addr now name store
        world).2.2 = .ok () →
      List.Forall₂ (fun j j' =>
        j'.name = j.name ∧ j'.created_at = j.created_at ∧
        j'.containers = j.containers ∧ j'.secrets = j.secrets ∧
        j'.metadata = j.metadata ∧
        (j.name ≠ name → j'.updated_at = j.updated_at) ∧
        (j.name = name → j'.updated_at = now))
        store
        (start_by_name start_container hostname advertise_addr now name store
          world).2.1) ∧
    (∀ e,
      (start_by_name start_container hostname advertise_addr now name store
        world).2.2 = .error e →
      (start_by_name start_container hostname advertise_addr now name store
        world).2.1 = store) := by
  cases hfind : repo_find_by_name name store with
  | error e0 =>
    constructor
    · intro h
      simp [start_by_name, hfind] at h
    · intro e he
      simp [start_by_name, hfind]
  | ok job =>
    cases hins : inspect_instances hostname advertise_addr name world with
    | error e0 =>
      constructor
      · intro h
        simp [start_by_name, hfind, hins] at h
      · intro e he
        simp [start_by_name, hfind, hins]
    | ok containers =>
      cases hc : (start_instances start_container containers).2 with
      | error e0 =>
        constructor
        · intro h
          simp [start_by_name, hfind, hins, hc] at h
        · intro e he
          simp [start_by_name, hfind, hins, hc]
      | ok l =>
        constructor
        · intro _
          have hstore : (start_by_name start_container hostname advertise_addr
              now name store world).2.1 = repo_update_by_name name now store := by
            simp [start_by_name, hfind, hins, hc]
          rw [hstore, repo_update_by_name]
          refine List.forall₂_map_right_iff.mpr (List.forall₂_same.mpr ?_)
          intro j hj
          by_cases hn : j.name = name
          · rw [if_pos hn]
            exact ⟨rfl, rfl, rfl, rfl, rfl, fun hne => absurd hn hne, fun _ => rfl⟩
          · rw [if_neg hn]
            exact ⟨rfl, rfl, rfl, rfl, rfl, fun _ => rfl, fun heq => absurd heq hn⟩
        · intro e he
          simp [start_by_name, hfind, hins, hc] at he

/-- C7 witness: the successful three-instance start scenario leaves the
stored job intact apart from its updated_at. -/
theorem start_by_name_frame_C7_witness :
    List.Forall₂ (fun j j' =>
      j'.name = j.name ∧ j'.created_at = j.created_at ∧
      j'.containers = j.containers ∧ j'.secrets = j.secrets ∧
      j'.metadata = j.metadata ∧
      (j.name ≠ "job1" → j'.updated_at = j.updated_at) ∧
      (j.name = "job1" → j'.updated_at = 5))
      [job1]
      (start_by_name okStart "node1" "127.0.0.1" 5 "job1" [job1] startWorld).2.1 :=
  (start_by_name_frame_C7 okStart "node1" "127.0.0.1" 5 "job1" [job1]
    startWorld).1 rfl

theorem lookupLabel_insertLabel_self (key value : String)
    (l : List (String × String)) :
    lookupLabel key (insertLabel key value l) = some value := by
  induction l with
  | nil => simp [insertLabel, lookupLabel]
  | cons kv rest ih =>
    by_cases h : kv.1 = key <;> simp [insertLabel, lookupLabel, h, ih]

theorem lookupLabel_insertLabel_other (key value other : String)
    (l : List (String × String)) (h : other ≠ key) :
    lookupLabel other (insertLabel key value l) = lookupLabel other l := by
  induction l with
  | nil => simp [insertLabel, lookupLabel, Ne.symm h]
  | cons kv rest ih =>
    by_cases hk : kv.1 = key
    · by_cases ho : kv.1 = other <;>
        simp_all [insertLabel, lookupLabel, Ne.symm h]
    · by_cases ho : kv.1 = other <;>
        simp [insertLabel, lookupLabel, hk, ho, ih, h]

theorem create_trace
    (create_container : ContainerPartial → Except HttpError Unit)
    (now : Int) (item : JobPartial) (store : List Job) :
    (create create_container now item store).1 =
      item.containers.map (inject_job_label item.name) := by
  unfold create
  dsimp only
  split <;> rfl

theorem create_store
    (create_container : ContainerPartial → Except HttpError Unit)
    (now : Int) (item : JobPartial) (store : List Job) :
    (create create_container now item store).2.1 =
      store ++ [(repo_job_create now item store).1] := by
  unfold create
  dsimp only
  split <;> rfl

/-- C5: create persists the Job record in the store first and
unconditionally (no rollback on failure), submits one create-container
call per container specification with the io.nanocl.job label mapped to
the job's name, aggregates fail-fast (the first error among the submitted
calls' results is returned), and on success returns the persisted Job. -/
theorem create_fanout_C5
    (create_container : ContainerPartial → Except HttpError Unit)
    (now : Int) (item : JobPartial) (store : List Job) :
    (create create_container now item store).2.1
      = store ++ [(repo_job_create now item store).1] ∧
    (create create_container now item store).1.length
      = item.containers.length ∧
    (∀ c ∈ (create create_container now item store).1,
      lookupLabel "io.nanocl.job" (c.labels.getD []) = some item.name) ∧
    (∀ e, first_error
        ((create create_container now item store).1.map create_container)
        = some e →
      (create create_container now item store).2.2 = .error e) ∧
    (first_error
        ((create create_container now item store).1.map create_container)
        = none →
      (create create_container now item store).2.2
        = .ok (repo_job_create now item store).1) := by
  have htrace := create_trace create_container now item store
  refine ⟨create_store create_container now item store, ?_, ?_, ?_, ?_⟩
  · rw [htrace, List.length_map]
  · intro c hc
    rw [htrace] at hc
    simp only [List.mem_map] at hc
    obtain ⟨c0, _, rfl⟩ := hc
    simp [inject_job_label, lookupLabel_insertLabel_self]
  · intro e he
    rw [htrace] at he
    have hc : collectResults
        ((item.containers.map (inject_job_label item.name)).map create_container)
        = .error e := (collectResults_error_iff _ e).mpr he
    rw [List.map_map] at hc
    unfold create
    dsimp only
    split
    · rename_i e2 heq
      simp [submitted_specs, repo_job_create] at heq
      rw [heq] at hc
      simp_all
    · rename_i l heq
      simp [submitted_specs, repo_job_create] at heq
      rw [heq] at hc
      simp_all
  · intro hn
    rw [htrace] at hn
    obtain ⟨l, hl⟩ := collectResults_ok_of_first_error_none _ hn
    rw [List.map_map] at hl
    unfold create
    dsimp only
    split
    · rename_i e2 heq
      simp [submitted_specs, repo_job_create] at heq
      rw [heq] at hl
      simp_all
    · rename_i l2 heq
      rfl

/-- C5 witness: with three specifications of which the second fails, the
Job record is persisted anyway and the first (and only) error is
returned. -/
theorem create_fanout_C5_witness :
    (create failCreate 0 jobPartial3 []).2.1
      = [] ++ [(repo_job_create 0 jobPartial3 []).1] ∧
    (create failCreate 0 jobPartial3 []).2.2
      = .error { status := 500, msg := "create failed" } := by
  have h := create_fanout_C5 failCreate 0 jobPartial3 []
  exact ⟨h.1, h.2.2.2.1 { status := 500, msg := "create failed" } rfl⟩

/-- C10: in create, the injected job label takes precedence over user
input: for every container specification of the job that already binds the
io.nanocl.job key, the corresponding submitted request maps that key to
the job's name, and every label under another key is preserved
unchanged. -/
theorem create_label_precedence_C10
    (create_container : ContainerPartial → Except HttpError Unit)
    (now : Int) (item : JobPartial) (store : List Job)
    (container : ContainerPartial) (hmem : container ∈ item.containers)
    (v : String)
    (hv : lookupLabel "io.nanocl.job" (container.labels.getD []) = some v) :
    inject_job_label item.name container
      ∈ (create create_container now item store).1 ∧
    lookupLabel "io.nanocl.job"
      ((inject_job_label item.name container).labels.getD [])
      = some item.name ∧
    (∀ key, key ≠ "io.nanocl.job" →
      lookupLabel key ((inject_job_label item.name container).labels.getD [])
        = lookupLabel key (container.labels.getD [])) := by
  refine ⟨?_, ?_, ?_⟩
  · rw [create_trace]
    exact List.mem_map_of_mem _ hmem
  · simp [inject_job_label, lookupLabel_insertLabel_self]
  · intro key hk
    simp [inject_job_label, lookupLabel_insertLabel_other _ _ _ _ hk]

/-- C10 witness: a user label io.nanocl.job=evil is overridden with the
job's name while the label app=web is preserved. -/
theorem create_label_precedence_C10_witness :
    lookupLabel "io.nanocl.job"
      ((inject_job_label "job1" userLabeledContainer).labels.getD [])
      = some "job1" ∧
    lookupLabel "app"
      ((inject_job_label "job1" userLabeledContainer).labels.getD [])
      = lookupLabel "app" (userLabeledContainer.labels.getD []) := by
  have h := create_label_precedence_C10 (fun _ => .ok ()) 0 userJobPartial []
    userLabeledContainer (by simp [userJobPartial]) "evil" rfl
  exact ⟨h.2.1, h.2.2 "app" (by decide)⟩

theorem repo_find_by_name_ok_name (name : String) (store : List Job) (job : Job)
    (h : repo_find_by_name name store = .ok job) : job.name = name := by
  unfold repo_find_by_name at h
  cases hf : store.find? (fun j => j.name = name) with
  | none =>
    rw [hf] at h
    simp at h
  | some j =>
    rw [hf] at h
    simp only [Except.ok.injEq] at h
    subst h
    have := List.find?_some hf
    simpa using this

theorem repo_find_by_name_delete (name : String) (store : List Job) :
    repo_find_by_name name (repo_delete_by_name name store)
      = .error { status := 404, msg := "job not found" } := by
  unfold repo_find_by_name repo_delete_by_name
  have hf : (store.filter (fun j => j.name ≠ name)).find?
      (fun j => j.name = name) = none := by
    rw [List.find?_eq_none]
    intro j hj
    have hm := (List.mem_filter.mp hj).2
    simp at hm ⊢
    exact hm
  rw [hf]

theorem delete_by_name_cases
    (remove_container : String → Bool → Except HttpError Unit)
    (name : String) (store : List Job) (world : List DockerContainer)
    (job : Job) (hjob : repo_find_by_name name store = .ok job) :
    (∀ e, collectResults ((list_instances name world).map
        (fun c => remove_container (c.id.getD "") true)) = .error e →
      delete_by_name remove_container name store world =
        ((list_instances name world).map (fun c => (c.id.getD "", true)),
         store, .error e)) ∧
    (∀ l, collectResults ((list_instances name world).map
        (fun c => remove_container (c.id.getD "") true)) = .ok l →
      delete_by_name remove_container name store world =
        ((list_instances name world).map (fun c => (c.id.getD "", true)),
         repo_delete_by_name job.name store, .ok ())) := by
  simp only [delete_by_name, hjob]
  constructor
  · intro e hc
    rw [hc]
  · intro l hc
    rw [hc]

/-- C4: delete_by_name first confirms the Job exists, then issues exactly
one forced (force = true) remove call per listed instance and aggregates
fail-fast: if any removal fails the first error in sequence order is
returned and the Job record still persists (find_by_name still succeeds),
and only when every removal succeeds is the Job record deleted from the
store. -/
theorem delete_by_name_C4
    (remove_container : String → Bool → Except HttpError Unit)
    (name : String) (store : List Job) (world : List DockerContainer) :
    (∀ e, repo_find_by_name name store = .error e →
      delete_by_name remove_container name store world = ([], store, .error e)) ∧
    (∀ job, repo_find_by_name name store = .ok job →
      (delete_by_name remove_container name store world).1 =
        (list_instances name world).map (fun c => (c.id.getD "", true)) ∧
      (∀ e, first_error ((list_instances name world).map
          (fun c => remove_container (c.id.getD "") true)) = some e →
        (delete_by_name remove_container name store world).2.2 = .error e ∧
        (delete_by_name remove_container name store world).2.1 = store ∧
        repo_find_by_name name
          (delete_by_name remove_container name store world).2.1 = .ok job) ∧
      ((∀ c ∈ list_instances name world,
          remove_container (c.id.getD "") true = .ok ()) →
        (delete_by_name remove_container name store world).2.2 = .ok () ∧
        repo_find_by_name name
          (delete_by_name remove_container name store world).2.1
          = .error { status := 404, msg := "job not found" })) := by
  constructor
  · intro e he
    simp [delete_by_name, he]
  · intro job hjob
    have hname := repo_find_by_name_ok_name name store job hjob
    obtain ⟨hcaseErr, hcaseOk⟩ :=
      delete_by_name_cases remove_container name store world job hjob
    refine ⟨?_, ?_, ?_⟩
    · cases hc : collectResults ((list_instances name world).map
          (fun c => remove_container (c.id.getD "") true)) with
      | error e => rw [hcaseErr e hc]
      | ok l => rw [hcaseOk l hc]
    · intro e he
      have hc := (collectResults_error_iff _ e).mpr he
      rw [hcaseErr e hc]
      exact ⟨rfl, rfl, hjob⟩
    · intro hall
      have hall2 : ∀ x ∈ (list_instances name world).map
          (fun c => remove_container (c.id.getD "") true), x = .ok () := by
        intro x hx
        simp only [List.mem_map] at hx
        obtain ⟨c, hcmem, rfl⟩ := hx
        exact hall c hcmem
      have hc := collectResults_ok_of_all_ok _ hall2
      rw [hcaseOk _ hc]
      refine ⟨rfl, ?_⟩
      rw [hname]
      exact repo_find_by_name_delete name store

/-- C4 witness: with the remove of c2 failing, that error is returned and
the Job record persists; with every remove succeeding, the Job record is
gone afterwards. -/
theorem delete_by_name_C4_witness :
    (delete_by_name failRemove "job1" [job1] startWorld).2.2
      = .error { status := 500, msg := "remove failed" } ∧
    (delete_by_name failRemove "job1" [job1] startWorld).2.1 = [job1] ∧
    repo_find_by_name "job1"
      (delete_by_name failRemove "job1" [job1] startWorld).2.1 = .ok job1 ∧
    (delete_by_name okRemove "job1" [job1] startWorld).2.2 = .ok () ∧
    repo_find_by_name "job1"
      (delete_by_name okRemove "job1" [job1] startWorld).2.1
      = .error { status := 404, msg := "job not found" } := by
  have h := delete_by_name_C4 failRemove "job1" [job1] startWorld
  have h2 := delete_by_name_C4 okRemove "job1" [job1] startWorld
  have hf := (h.2 job1 rfl).2.1 { status := 500, msg := "remove failed" } rfl
  have hs := (h2.2 job1 rfl).2.2 (fun c hc => rfl)
  exact ⟨hf.1, hf.2.1, hf.2.2, hs.1, hs.2⟩

/-- C3: in the merged wait stream, a runtime container-wait error is
emitted as a non-error wait record carrying the instance's cleaned name,
the runtime status code and the error message, while every other
transport-level error propagates as a stream error; in the two-instance
scenario where instance c1 yields a container-wait error and instance c2
yields exit code 0, the merged stream holds exactly two non-error records
and is consumed whole (the wait error terminates nothing). -/
theorem wait_error_isolation_C3 :
    (∀ (cname msg : String) (code : Int),
      map_wait_result cname (.error (.DockerContainerWaitError msg code)) =
        .ok { container_name := cname, status_code := code,
              error := some { message := some msg } }) ∧
    (∀ (cname m : String),
      map_wait_result cname (.error (.ApiError m)) = .error (.ApiError m)) ∧
    wait waitOracle "job1" [job1] waitWorld = .ok waitMerged ∧
    (ok_records waitMerged).length = 2 ∧
    consumed_stream waitMerged = waitMerged := by
  refine ⟨?_, ?_, ?_, ?_, ?_⟩
  · intro cname msg code
    rfl
  · intro cname m
    rfl
  · rfl
  · rfl
  · rfl

end Nanocl
